import Mathlib

/-!
Shallow embedding of `src/RTSP_To_VirtualCam.py`.

The program relays an RTSP stream into a virtual camera.  Its core pieces,
modelled here:

* `VirtualCamSendThread` — the sink driver.  It owns a one-slot queue
  (`queue.Queue(maxsize=1)`), a `send_test_pattern` mode flag, and the
  virtual-camera handle; `send_frame` is the relay's submit, the `run` loop
  drains the slot, `create_test_pattern` generates the placeholder image,
  `set_frame_rate` opens the camera.
* `VideoThread` — the stream connection.  `connect_stream` opens the RTSP
  container and resolves the frame rate, the `run` loop demuxes/decodes and
  forwards frames, `attempt_reconnection` implements exponential backoff,
  `handle_disconnection` converts read errors into the reconnecting state,
  `stop` shuts the thread down.

Python's sequential semantics within one thread is modelled by explicit
state passing; signal emissions and cross-object calls are recorded as
events in a trace.  Machine integers do not overflow in the ranges used
(waits ≤ 32, pixel values ≤ 255), so `Nat` is used throughout.
-/

namespace RTSPVC

/-- A pixel value: a 3-channel color tuple, as assigned by
`frame[...] = color` in `create_test_pattern`. -/
abbrev Color : Type := Nat × Nat × Nat

/-- The `colors` list of `create_test_pattern` (source lines 173-182),
in source order: white, yellow, cyan, green, magenta, red, blue, black. -/
def colors : List Color :=
  [(255, 255, 255), (255, 255, 0), (0, 255, 255), (0, 255, 0),
   (255, 0, 255), (255, 0, 0), (0, 0, 255), (0, 0, 0)]

/-- A frame: a rectangular 3-channel pixel buffer, as produced by
`np.zeros((height, width, 3))` and slice assignment.  `pixel r c` is the
color at row `r`, column `c`; only `r < height`, `c < width` are part of
the image. -/
structure Image where
  width : Nat
  height : Nat
  pixel : Nat → Nat → Color

/-- `VirtualCamSendThread.create_test_pattern` (source lines 167-189):
`bar_height = height // 8`; start from an all-zero (black) frame; for each
`(i, color)` in `enumerate(colors)` assign rows `[i*bar_height, (i+1)*bar_height)`
to `color`.  The numpy body raises no exception (empty slices are legal), so
the `except` fallback to a black frame is subsumed: a degenerate height
leaves the zero initialization in place. -/
def create_test_pattern (width height : Nat) : Image :=
  let bar_height := height / 8
  let frame0 : Nat → Nat → Color := fun _ _ => (0, 0, 0)
  let assign : (Nat → Nat → Color) → Nat × Color → (Nat → Nat → Color) :=
    fun px ic => fun r c =>
      if ic.1 * bar_height ≤ r ∧ r < (ic.1 + 1) * bar_height then ic.2 else px r c
  ⟨width, height, colors.enum.foldl assign frame0⟩

/-- The virtual-camera handle created by `pyvirtualcam.Camera(width, height, fps)`
(source line 142).  The float `fps = n / d` is kept as the rational pair. -/
structure Cam where
  width : Nat
  height : Nat
  fps_n : Nat
  fps_d : Nat
  deriving DecidableEq, Repr

/-- State of `VirtualCamSendThread` (source lines 40-48).  The
`queue.Queue(maxsize=1)` is the `slot : Option α`. -/
structure VCam (α : Type) where
  slot : Option α
  running : Bool
  frame_rate_n : Option Nat
  frame_rate_d : Option Nat
  send_test_pattern : Bool
  test_pattern_resolution : Nat × Nat
  virtual_cam : Option Cam

/-- `VirtualCamSendThread.__init__`: empty queue, running, no frame rate,
test pattern on, 1920×1080, no camera. -/
def VCam.init (α : Type) : VCam α :=
  ⟨none, true, none, none, true, (1920, 1080), none⟩

/-- `queue.Queue.put_nowait` on a size-1 queue: succeeds iff empty,
raises `queue.Full` otherwise. -/
def put_nowait {α : Type} (f : α) : Option α → Except Unit (Option α)
  | none => .ok (some f)
  | some _ => .error ()

/-- `queue.Queue.get_nowait` on a size-1 queue: returns the held element,
raises `queue.Empty` if empty. -/
def get_nowait {α : Type} : Option α → Except Unit (α × Option α)
  | some x => .ok (x, none)
  | none => .error ()

/-- `VirtualCamSendThread.send_frame` (source lines 106-129): in test-pattern
mode return immediately; otherwise `put_nowait`, on `queue.Full` discard via
`get_nowait` (ignoring `queue.Empty`) and `put_nowait` again, giving up if
still full. -/
def send_frame {α : Type} (f : α) (s : VCam α) : VCam α :=
  if s.send_test_pattern then s
  else
    match put_nowait f s.slot with
    | .ok q => { s with slot := q }
    | .error _ =>
      let q1 := match get_nowait s.slot with
        | .ok (_, q) => q
        | .error _ => s.slot
      match put_nowait f q1 with
      | .ok q => { s with slot := q }
      | .error _ => s

/-- `self.queue.get(timeout=1)` as performed by the sink `run` loop
(source line 70): return the held frame and empty the slot, or signal
`queue.Empty` (modelled as `none`) when no frame is available. -/
def take {α : Type} (s : VCam α) : Option α × VCam α :=
  match s.slot with
  | some f => (some f, { s with slot := none })
  | none => (none, s)

/-- `VirtualCamSendThread.enable_test_pattern` (source lines 151-157). -/
def enable_test_pattern {α : Type} (s : VCam α) : VCam α :=
  if s.send_test_pattern then s else { s with send_test_pattern := true }

/-- `VirtualCamSendThread.disable_test_pattern` (source lines 159-165). -/
def disable_test_pattern {α : Type} (s : VCam α) : VCam α :=
  if s.send_test_pattern then { s with send_test_pattern := false } else s

/-- `VirtualCamSendThread.set_frame_rate` (source lines 131-149): always
record the rate fields; open the camera (at the test-pattern resolution,
with the given fps) only when `self.virtual_cam` is not yet set, otherwise
leave the camera untouched.  The camera open is modelled as succeeding; the
failure branch (which would set `running := false`) is an environment
condition outside this model. -/
def set_frame_rate {α : Type} (n d : Nat) (s : VCam α) : VCam α :=
  let s1 := { s with frame_rate_n := some n, frame_rate_d := some d }
  match s1.virtual_cam with
  | none =>
    let cam : Cam := ⟨s1.test_pattern_resolution.1, s1.test_pattern_resolution.2, n, d⟩
    { s1 with virtual_cam := some cam }
  | some _ => s1

/-- One iteration of the `VirtualCamSendThread.run` loop (source lines
52-79), returning the frame sent to the virtual camera this iteration (if
any): with no camera the loop only sleeps; in test-pattern mode it sends a
generated pattern; otherwise it drains the queue, sending the taken frame
or looping on timeout. -/
def sink_step (s : VCam Image) : Option Image × VCam Image :=
  match s.virtual_cam with
  | none => (none, s)
  | some _ =>
    if s.send_test_pattern then
      (some (create_test_pattern s.test_pattern_resolution.1
              s.test_pattern_resolution.2), s)
    else take s

/-- Frames sent to the virtual camera over `n` iterations of the sink loop. -/
def sinkEmits : Nat → VCam Image → List Image
  | 0, _ => []
  | n + 1, s =>
    let (out, s1) := sink_step s
    match out with
    | some f => f :: sinkEmits n s1
    | none => sinkEmits n s1

/-- `VideoThread.__init__` backoff constants (source lines 224-225). -/
def initial_wait : Nat := 1

/-- Maximum backoff wait in seconds (source line 225). -/
def max_wait : Nat := 32

/-- State of `VideoThread` (source lines 212-226).  `container` records
whether an `av` container is currently open. -/
structure VT where
  running : Bool
  connection_established : Bool
  container : Bool
  should_reconnect : Bool
  is_reconnecting : Bool
  current_wait : Nat
  deriving DecidableEq, Repr

/-- `VideoThread.__init__`: running, not connected, no container,
reconnection allowed, not reconnecting, wait at `initial_wait`. -/
def VT.init : VT := ⟨true, false, false, true, false, initial_wait⟩

/-- Observable actions of `VideoThread`: the pyqtSignal emissions
(`connectionLost`, `connectionEstablished`, `reconnectionAttempt`,
`frameReady`, `vcFrameReady`) and the calls it makes into
`VirtualCamSendThread` (`setFrameRate`, `enableTP`, `disableTP`,
`submitFrame`). -/
inductive VEvent (α : Type) where
  | connectionLost : VEvent α
  | connectionEstablished : VEvent α
  | reconnectionAttempt : Nat → VEvent α
  | frameReady : α → VEvent α
  | vcFrameReady : α → VEvent α
  | setFrameRate : Nat → Nat → VEvent α
  | enableTP : VEvent α
  | disableTP : VEvent α
  | submitFrame : α → VEvent α
  deriving DecidableEq

/-- The events delivered to the external observer (GUI): exactly the
pyqtSignal emissions of `VideoThread`. -/
def VEvent.isObserver {α : Type} : VEvent α → Bool
  | .connectionLost => true
  | .connectionEstablished => true
  | .reconnectionAttempt _ => true
  | .frameReady _ => true
  | .vcFrameReady _ => true
  | _ => false

/-- Outcome of one `av.open` attempt: failure, or success together with the
video substream's advertised `average_rate` (`none` when unavailable). -/
inductive ConnectOutcome where
  | fail : ConnectOutcome
  | success : Option (Nat × Nat) → ConnectOutcome
  deriving DecidableEq

/-- `stream.average_rate if available else 25/1` (source lines 304-312). -/
def resolved_rate (adv : Option (Nat × Nat)) : Nat × Nat := adv.getD (25, 1)

/-- `VideoThread.connect_stream` (source lines 282-333): close any previous
container; try `av.open`.  On success: resolve the frame rate, call
`set_frame_rate` on the sink thread, emit `connection_established`, call
`disable_test_pattern`, clear `is_reconnecting`.  On failure: record
`connection_established := False` with no container.  The connect outcome
is a parameter (it depends on the network). -/
def connect_stream (o : ConnectOutcome) (s : VT) (v : VCam Image) :
    VT × VCam Image × List (VEvent Image) :=
  let s0 := { s with container := false }
  match o with
  | .fail => ({ s0 with connection_established := false }, v, [])
  | .success adv =>
    let (n, d) := resolved_rate adv
    let v1 := set_frame_rate n d v
    let v2 := disable_test_pattern v1
    ({ s0 with container := true, connection_established := true,
               is_reconnecting := false },
     v2,
     [.setFrameRate n d, .connectionEstablished, .disableTP])

/-- `VideoThread.attempt_reconnection` (source lines 351-365): while
`running and should_reconnect and is_reconnecting`: emit the attempt with
the current wait, sleep, re-check `running`, `connect_stream`; stop on
success, else double the wait capped at `max_wait`.  The list of outcomes
supplies each attempt's connect result and bounds the recursion. -/
def attempt_reconnection : List ConnectOutcome → VT → VCam Image →
    VT × VCam Image × List (VEvent Image)
  | [], s, v => (s, v, [])
  | o :: os, s, v =>
    if s.running && s.should_reconnect && s.is_reconnecting then
      let e0 : List (VEvent Image) := [.reconnectionAttempt s.current_wait]
      if !s.running then (s, v, e0)
      else
        let (s1, v1, e1) := connect_stream o s v
        if s1.connection_established then (s1, v1, e0 ++ e1)
        else
          let s2 := { s1 with current_wait := min (s1.current_wait * 2) max_wait }
          let (s3, v3, e3) := attempt_reconnection os s2 v1
          (s3, v3, e0 ++ e1 ++ e3)
    else (s, v, [])

/-- `VideoThread.handle_disconnection` (source lines 335-349), up to the
point where it would invoke `attempt_reconnection`: if the connection was
established, emit `connection_lost` and enable the test pattern; if a
reconnection loop is already running, return; else mark `is_reconnecting`.
The subsequent `attempt_reconnection` call is modelled separately. -/
def handle_disconnection (s : VT) (v : VCam Image) :
    VT × VCam Image × List (VEvent Image) :=
  let (s1, v1, e1) :=
    if s.connection_established then
      ({ s with connection_established := false }, enable_test_pattern v,
       ([.connectionLost, .enableTP] : List (VEvent Image)))
    else (s, v, [])
  if s1.is_reconnecting then (s1, v1, e1)
  else ({ s1 with is_reconnecting := true }, v1, e1)

/-- One element of `self.container.demux()` as seen by the read loop: a
packet carrying its `dts` and its `decode()` results (`none` for a null
frame), or a transport/decode error raised mid-iteration. -/
inductive DemuxItem where
  | packet : Option Int → List (Option Image) → DemuxItem
  | raiseErr : DemuxItem

/-- The inner `for frame in packet.decode()` loop (source lines 252-268)
with `running` true throughout: skip `None` frames; for each valid frame
emit `frame_ready`, call `send_frame` on the sink thread, and emit
`virtual_cam_frame_ready`. -/
def process_frames : List (Option Image) → VCam Image →
    VCam Image × List (VEvent Image)
  | [], v => (v, [])
  | none :: rest, v => process_frames rest v
  | some f :: rest, v =>
    let v1 := send_frame f v
    let (v2, evs) := process_frames rest v1
    (v2, [.frameReady f, .submitFrame f, .vcFrameReady f] ++ evs)

/-- The `for packet in self.container.demux()` loop (source lines 245-268)
with `running` true throughout: skip packets whose `dts` is `None`,
process the frames of the rest; a raised error aborts the iteration and is
reported in the boolean (to be caught by `run`'s `except` clauses). -/
def process_packets : List DemuxItem → VCam Image →
    VCam Image × List (VEvent Image) × Bool
  | [], v => (v, [], false)
  | .raiseErr :: _, v => (v, [], true)
  | .packet dts frs :: rest, v =>
    match dts with
    | none => process_packets rest v
    | some _ =>
      let (v1, evs1) := process_frames frs v
      let (v2, evs2, e) := process_packets rest v1
      (v2, evs1 ++ evs2, e)

/-- One iteration of the `VideoThread.run` while-loop (source lines
229-280) given the connect outcome and the demuxed items: `connect_stream`;
if it failed and no reconnection loop runs, emit `connection_lost`, enable
the test pattern, set `is_reconnecting` (the subsequent
`attempt_reconnection` call is modelled separately); on success reset
`current_wait`, process packets, route any raised error through the
`except` handler (`handle_disconnection` — never re-raised), and in the
`finally` close the container. -/
def run_once (o : ConnectOutcome) (items : List DemuxItem) (s : VT)
    (v : VCam Image) : VT × VCam Image × List (VEvent Image) :=
  let (s1, v1, e1) := connect_stream o s v
  if !s1.connection_established then
    if s1.is_reconnecting then (s1, v1, e1)
    else
      ({ s1 with is_reconnecting := true }, enable_test_pattern v1,
       e1 ++ [.connectionLost, .enableTP])
  else
    let s2 := { s1 with current_wait := initial_wait }
    let (v2, e2, errored) := process_packets items v1
    let (s3, v3, e3) :=
      if errored then handle_disconnection s2 v2 else (s2, v2, [])
    ({ s3 with container := false }, v3, e1 ++ e2 ++ e3)

/-- The start of `VideoThread.run` against an unreachable source: the first
loop iteration fails to connect, emits `connection_lost`, enables the test
pattern, and enters `attempt_reconnection`, where `fails` further connect
attempts all fail. -/
def run_fail_start (fails : Nat) (s : VT) (v : VCam Image) :
    VT × VCam Image × List (VEvent Image) :=
  let (s1, v1, e1) := connect_stream .fail s v
  if s1.connection_established then (s1, v1, e1)
  else if s1.is_reconnecting then (s1, v1, e1)
  else
    let s2 := { s1 with is_reconnecting := true }
    let v2 := enable_test_pattern v1
    let (s3, v3, e3) := attempt_reconnection (List.replicate fails .fail) s2 v2
    (s3, v3, e1 ++ [.connectionLost, .enableTP] ++ e3)

/-- `VideoThread.stop` (source lines 367-377), its effect on the thread
state once `self.wait()` has joined the run loop: `running := False`, close
the container, forbid reconnection. -/
def stopVT (s : VT) : VT :=
  let s1 := { s with running := false }
  { s1 with container := false, should_reconnect := false,
            is_reconnecting := false }

/-- `self.current_wait = min(self.current_wait * 2, self.max_wait)`
(source line 364). -/
def backoff_step (w : Nat) : Nat := min (w * 2) max_wait

/-- Position of the `attempt_reconnection` loop between its statements, at
one-second granularity: `loopHead` is the `while` test, `sleeping k` models
being inside `time.sleep` with `k` seconds left, `afterSleep` is the
`if not self.running` check, `done` is loop exit.  A `time.sleep` call is
uninterruptible: the loop reads `running` only at `loopHead` and
`afterSleep`, never inside `sleeping`. -/
inductive RPhase where
  | loopHead : RPhase
  | sleeping : Nat → RPhase
  | afterSleep : RPhase
  | done : RPhase
  deriving DecidableEq, Repr

/-- The `attempt_reconnection` loop state at one-second tick granularity. -/
structure ReconM where
  running : Bool
  should_reconnect : Bool
  is_reconnecting : Bool
  current_wait : Nat
  phase : RPhase
  deriving DecidableEq, Repr

/-- One one-second tick of `attempt_reconnection` (source lines 351-365).
`stopNow` is a concurrent `stop()` call setting `self.running = False` at
this tick (the flag write is immediate; the loop observes it only at its
check points); `connectOk` is the result of the `connect_stream` call when
this tick performs one.  At `loopHead` the loop either emits the attempt
and starts the sleep, or exits; during `sleeping` it only counts down; at
`afterSleep` it checks `running`, connects, and on failure doubles the
wait. -/
def rstep (stopNow connectOk : Bool) (s : ReconM) : ReconM × Option Nat :=
  let s := if stopNow then { s with running := false } else s
  match s.phase with
  | .loopHead =>
    if s.running && s.should_reconnect && s.is_reconnecting then
      ({ s with phase := .sleeping s.current_wait }, some s.current_wait)
    else ({ s with phase := .done }, none)
  | .sleeping k =>
    if k ≤ 1 then ({ s with phase := .afterSleep }, none)
    else ({ s with phase := .sleeping (k - 1) }, none)
  | .afterSleep =>
    if !s.running then ({ s with phase := .done }, none)
    else if connectOk then ({ s with phase := .done, is_reconnecting := false }, none)
    else ({ s with current_wait := backoff_step s.current_wait,
                   phase := .loopHead }, none)
  | .done => (s, none)

/-- Run the tick machine over a schedule of `(stopNow, connectOk)` pairs. -/
def rrun : List (Bool × Bool) → ReconM → ReconM
  | [], s => s
  | p :: ps, s => rrun ps (rstep p.1 p.2 s).1

/-- The reconnection-attempt emissions of the tick machine over a schedule. -/
def rrunEmits : List (Bool × Bool) → ReconM → List Nat
  | [], _ => []
  | p :: ps, s =>
    let (s1, e) := rstep p.1 p.2 s
    match e with
    | some w => w :: rrunEmits ps s1
    | none => rrunEmits ps s1

/-- Is this event a `setFrameRate` call into the sink thread? -/
def VEvent.isSetRate {α : Type} : VEvent α → Bool
  | .setFrameRate _ _ => true
  | _ => false

/-- The non-null decoded frames of the packets that the read loop actually
processes: packets strictly before the first raised error whose `dts` is
present. -/
def specValidFrames (items : List DemuxItem) : List Image :=
  (items.takeWhile fun it => match it with
    | .raiseErr => false
    | _ => true).flatMap fun it =>
      match it with
      | .packet (some _) frs => frs.reduceOption
      | _ => []

/-! ## Helper lemmas about the relay slot -/

/-- In test-pattern mode `send_frame` returns immediately. -/
lemma send_frame_tp_fix {α : Type} (f : α) (s : VCam α)
    (h : s.send_test_pattern = true) : send_frame f s = s := by
  simp [send_frame, h]

/-- In test-pattern mode any sequence of `send_frame` calls is a no-op. -/
lemma sendfold_tp_fix {α : Type} (fs : List α) (s : VCam α)
    (h : s.send_test_pattern = true) :
    fs.foldl (fun t g => send_frame g t) s = s := by
  induction fs with
  | nil => rfl
  | cons g gs ih => simp [List.foldl_cons, send_frame_tp_fix g s h, ih]

/-- In live mode `send_frame` leaves the slot holding exactly the new frame
(whether it was empty or occupied) and preserves every other field. -/
lemma send_frame_live {α : Type} (f : α) (s : VCam α)
    (h : s.send_test_pattern = false) :
    send_frame f s = { s with slot := some f } := by
  cases hs : s.slot <;> simp [send_frame, put_nowait, get_nowait, h, hs]

/-- In live mode a nonempty sequence of `send_frame` calls leaves the slot
holding exactly the last frame of the sequence. -/
lemma sendfold_live {α : Type} (fs : List α) (s : VCam α) (flast : α)
    (h : s.send_test_pattern = false) (hlast : fs.getLast? = some flast) :
    fs.foldl (fun t g => send_frame g t) s = { s with slot := some flast } := by
  induction fs generalizing s with
  | nil => simp at hlast
  | cons g gs ih =>
    cases gs with
    | nil =>
      simp at hlast
      subst hlast
      simp [List.foldl_cons, send_frame_live g s h]
    | cons g2 gs2 =>
      rw [List.getLast?_cons_cons] at hlast
      rw [List.foldl_cons, send_frame_live g s h]
      exact ih _ h hlast

/-! ## C1, C2, C10, C6 -/

/-- C1: for every sequence of `send_frame` calls made while the relay mode
is Live, a subsequent `take` returns only the most recently submitted frame
that has not yet been taken; the slot (an `Option`) holds at most one
pending frame, and a submit finding an un-taken frame replaces it, so no
intermediate frame is ever observed by `take`. -/
theorem C1_live_take_returns_last {α : Type} (s : VCam α) (fs : List α)
    (flast : α) (hmode : s.send_test_pattern = false)
    (hlast : fs.getLast? = some flast) :
    (take (fs.foldl (fun t g => send_frame g t) s)).1 = some flast ∧
    (take (fs.foldl (fun t g => send_frame g t) s)).2.slot = none ∧
    (∀ (g old : α) (t : VCam α), t.send_test_pattern = false →
      t.slot = some old → (send_frame g t).slot = some g) := by
  rw [sendfold_live fs s flast hmode hlast]
  refine ⟨rfl, rfl, ?_⟩
  intro g old t ht _
  rw [send_frame_live g t ht]

/-- Witness for C1: submitting 1, 2, 3 in live mode, `take` returns 3. -/
theorem C1_witness :
    (disable_test_pattern (VCam.init Nat)).send_test_pattern = false ∧
    ([1, 2, 3] : List Nat).getLast? = some 3 ∧
    (take (([1, 2, 3] : List Nat).foldl (fun t g => send_frame g t)
      (disable_test_pattern (VCam.init Nat)))).1 = some 3 :=
  ⟨rfl, rfl,
    (C1_live_take_returns_last (disable_test_pattern (VCam.init Nat))
      [1, 2, 3] 3 rfl rfl).1⟩

/-- C2: while the relay mode is Placeholder (`send_test_pattern` true),
every `send_frame` call is a no-op: any number of submits leave the whole
sink-thread state (in particular the held frame) unchanged. -/
theorem C2_placeholder_submit_noop {α : Type} (s : VCam α) (fs : List α)
    (h : s.send_test_pattern = true) :
    fs.foldl (fun t g => send_frame g t) s = s :=
  sendfold_tp_fix fs s h

/-- Witness for C2: submitting 5, 6, 7 to the freshly initialized thread
(test-pattern mode) changes nothing. -/
theorem C2_witness :
    (VCam.init Nat).send_test_pattern = true ∧
    ([5, 6, 7] : List Nat).foldl (fun t g => send_frame g t) (VCam.init Nat) =
      VCam.init Nat :=
  ⟨rfl, C2_placeholder_submit_noop (VCam.init Nat) [5, 6, 7] rfl⟩

/-- C10: `enable_test_pattern` changes only the mode flag and does not
clear a frame already held in the slot: a live frame submitted while mode
was Live and never taken stays pending through the whole placeholder
period (submits during it being no-ops), and the first `take` after
`disable_test_pattern` returns that pre-disconnection frame. -/
theorem C10_mode_switch_keeps_slot {α : Type} (s : VCam α) (f : α)
    (gs : List α) (h : s.send_test_pattern = false) :
    (∀ t : VCam α, (enable_test_pattern t).slot = t.slot ∧
      (enable_test_pattern t).send_test_pattern = true ∧
      (enable_test_pattern t).virtual_cam = t.virtual_cam ∧
      (enable_test_pattern t).frame_rate_n = t.frame_rate_n ∧
      (enable_test_pattern t).frame_rate_d = t.frame_rate_d ∧
      (enable_test_pattern t).running = t.running ∧
      (enable_test_pattern t).test_pattern_resolution =
        t.test_pattern_resolution) ∧
    (gs.foldl (fun t g => send_frame g t)
      (enable_test_pattern (send_frame f s))).slot = some f ∧
    (take (disable_test_pattern (gs.foldl (fun t g => send_frame g t)
      (enable_test_pattern (send_frame f s))))).1 = some f := by
  have hen : ∀ t : VCam α, (enable_test_pattern t).slot = t.slot ∧
      (enable_test_pattern t).send_test_pattern = true ∧
      (enable_test_pattern t).virtual_cam = t.virtual_cam ∧
      (enable_test_pattern t).frame_rate_n = t.frame_rate_n ∧
      (enable_test_pattern t).frame_rate_d = t.frame_rate_d ∧
      (enable_test_pattern t).running = t.running ∧
      (enable_test_pattern t).test_pattern_resolution =
        t.test_pattern_resolution := by
    intro t
    by_cases ht : t.send_test_pattern = true <;> simp [enable_test_pattern, ht]
  rw [send_frame_live f s h]
  have henable : enable_test_pattern { s with slot := some f } =
      { s with slot := some f, send_test_pattern := true } := by
    simp [enable_test_pattern, h]
  rw [henable,
    sendfold_tp_fix gs { s with slot := some f, send_test_pattern := true } rfl]
  exact ⟨hen, rfl, rfl⟩

/-- Witness for C10: frame 9 submitted live survives mode switching and
two placeholder-period submits, and is returned by the first live take. -/
theorem C10_witness :
    (disable_test_pattern (VCam.init Nat)).send_test_pattern = false ∧
    (take (disable_test_pattern (([4, 5] : List Nat).foldl
      (fun t g => send_frame g t)
      (enable_test_pattern (send_frame 9
        (disable_test_pattern (VCam.init Nat))))))).1 = some 9 :=
  ⟨rfl, (C10_mode_switch_keeps_slot (disable_test_pattern (VCam.init Nat))
    9 [4, 5] rfl).2.2⟩

/-- `set_frame_rate` leaves an already-open camera untouched. -/
lemma set_frame_rate_cam_some {α : Type} (n d : Nat) (s : VCam α) (c : Cam)
    (h : s.virtual_cam = some c) :
    (set_frame_rate n d s).virtual_cam = some c := by
  simp [set_frame_rate, h]

/-- C6: `set_frame_rate` opens the output device exactly once: the first
call (camera not yet open) opens it at the test-pattern resolution with the
given fps; any later call — indeed any sequence of later calls — leaves the
open device and its recorded parameters (resolution and fps) unchanged. -/
theorem C6_device_opened_once {α : Type} (s : VCam α) (c : Cam) (n d : Nat) :
    (s.virtual_cam = none →
      (set_frame_rate n d s).virtual_cam =
        some ⟨s.test_pattern_resolution.1, s.test_pattern_resolution.2, n, d⟩) ∧
    (s.virtual_cam = some c → (set_frame_rate n d s).virtual_cam = some c) ∧
    (∀ calls : List (Nat × Nat), s.virtual_cam = some c →
      (calls.foldl (fun t p => set_frame_rate p.1 p.2 t) s).virtual_cam =
        some c) := by
  refine ⟨fun h => by simp [set_frame_rate, h], set_frame_rate_cam_some n d s c, ?_⟩
  intro calls
  induction calls generalizing s with
  | nil => exact fun h => h
  | cons p ps ih =>
    intro h
    exact ih _ (set_frame_rate_cam_some p.1 p.2 s c h)

/-- Witness for C6: the first call opens the camera at 1920×1080 with
25/1; a second call with 30/1 leaves that camera unchanged. -/
theorem C6_witness :
    (set_frame_rate 25 1 (VCam.init Nat)).virtual_cam =
      some ⟨1920, 1080, 25, 1⟩ ∧
    (set_frame_rate 30 1 (set_frame_rate 25 1 (VCam.init Nat))).virtual_cam =
      some ⟨1920, 1080, 25, 1⟩ :=
  ⟨(C6_device_opened_once (VCam.init Nat) ⟨1920, 1080, 25, 1⟩ 25 1).1 rfl,
   (C6_device_opened_once (set_frame_rate 25 1 (VCam.init Nat))
     ⟨1920, 1080, 25, 1⟩ 30 1).2.1 rfl⟩

/-! ## C3: the test pattern -/

/-- Pointwise characterization of `create_test_pattern`: the fold over the
eight `(index, color)` pairs is the nested conditional below (later
assignments shadow earlier ones, hence index 7 outermost). -/
lemma create_test_pattern_pixel (w h r c : Nat) :
    (create_test_pattern w h).pixel r c =
      (if 7 * (h / 8) ≤ r ∧ r < (7 + 1) * (h / 8) then (0, 0, 0)
       else if 6 * (h / 8) ≤ r ∧ r < (6 + 1) * (h / 8) then (0, 0, 255)
       else if 5 * (h / 8) ≤ r ∧ r < (5 + 1) * (h / 8) then (255, 0, 0)
       else if 4 * (h / 8) ≤ r ∧ r < (4 + 1) * (h / 8) then (255, 0, 255)
       else if 3 * (h / 8) ≤ r ∧ r < (3 + 1) * (h / 8) then (0, 255, 0)
       else if 2 * (h / 8) ≤ r ∧ r < (2 + 1) * (h / 8) then (0, 255, 255)
       else if 1 * (h / 8) ≤ r ∧ r < (1 + 1) * (h / 8) then (255, 255, 0)
       else if 0 * (h / 8) ≤ r ∧ r < (0 + 1) * (h / 8) then (255, 255, 255)
       else (0, 0, 0)) := rfl

set_option maxHeartbeats 2000000 in
/-- C3: `create_test_pattern` is a pure deterministic total function: two
calls with the same `(w, h)` give identical output; the output is an
`h × w` 3-channel image; for `h ≥ 8`, band `k` (`k < 8`) covers rows
`[k*(h/8), (k+1)*(h/8))` with the fixed colors white, yellow, cyan, green,
magenta, red, blue, black in source order, and the remainder rows
`[8*(h/8), h)` carry black, i.e. the last band's color; for a degenerate
height (`h < 8`, where no band can be computed) every pixel is black — an
all-black frame of the requested size, with no failure. -/
theorem C3_test_pattern_bands (w h : Nat) :
    create_test_pattern w h = create_test_pattern w h ∧
    (create_test_pattern w h).width = w ∧
    (create_test_pattern w h).height = h ∧
    (8 ≤ h → ∀ k, k < 8 → ∀ r c, k * (h / 8) ≤ r → r < (k + 1) * (h / 8) →
      (create_test_pattern w h).pixel r c = colors.getD k (0, 0, 0)) ∧
    (8 ≤ h → ∀ r c, 8 * (h / 8) ≤ r →
      (create_test_pattern w h).pixel r c = (0, 0, 0)) ∧
    (colors.getD 7 (0, 0, 0) = (0, 0, 0)) ∧
    (h < 8 → ∀ r c, (create_test_pattern w h).pixel r c = (0, 0, 0)) := by
  refine ⟨rfl, rfl, rfl, ?_, ?_, rfl, ?_⟩
  · intro h8 k hk r c hlo hhi
    rw [create_test_pattern_pixel]
    have hb : 1 ≤ h / 8 := Nat.one_le_div_iff (by norm_num) |>.mpr h8
    interval_cases k <;> split_ifs <;> first | rfl | omega
  · intro h8 r c hr
    rw [create_test_pattern_pixel]
    split_ifs <;> first | rfl | omega
  · intro h8 r c
    rw [create_test_pattern_pixel]
    have hb : h / 8 = 0 := Nat.div_eq_of_lt h8
    split_ifs <;> first | rfl | omega

/-- Witness for C3: at `(w, h) = (4, 17)`, row 5 lies in band 2 (cyan),
row 16 is a remainder row (black), and at height 5 everything is black. -/
theorem C3_witness :
    (8 ≤ 17 ∧ (create_test_pattern 4 17).pixel 5 0 = (0, 255, 255)) ∧
    (create_test_pattern 4 17).pixel 16 0 = (0, 0, 0) ∧
    (5 < 8 ∧ (create_test_pattern 9 5).pixel 2 3 = (0, 0, 0)) :=
  ⟨⟨by norm_num,
    (C3_test_pattern_bands 4 17).2.2.2.1 (by norm_num) 2 (by norm_num) 5 0
      (by norm_num) (by norm_num)⟩,
   (C3_test_pattern_bands 4 17).2.2.2.2.1 (by norm_num) 16 0 (by norm_num),
   ⟨by norm_num,
    (C3_test_pattern_bands 9 5).2.2.2.2.2.2 (by norm_num) 2 3⟩⟩

/-! ## C4, C5: exponential backoff and the failing-start trace -/

/-- Doubling a capped wait and re-capping is capping the doubled wait. -/
lemma min_cap_pow (w k : Nat) :
    min (min (w * 2) max_wait * 2 ^ k) max_wait =
      min (w * 2 ^ (k + 1)) max_wait := by
  rcases le_total (w * 2) max_wait with hle | hle
  · rw [min_eq_left hle]
    have : w * 2 * 2 ^ k = w * 2 ^ (k + 1) := by ring
    rw [this]
  · rw [min_eq_right hle]
    have h1 : (1 : Nat) ≤ 2 ^ k := Nat.one_le_two_pow
    have h2 : max_wait ≤ max_wait * 2 ^ k :=
      Nat.le_mul_of_pos_right _ (by omega)
    have h3 : max_wait ≤ w * 2 ^ (k + 1) := by
      calc max_wait ≤ w * 2 := hle
        _ ≤ w * 2 * 2 ^ k := Nat.le_mul_of_pos_right _ (by omega)
        _ = w * 2 ^ (k + 1) := by ring
    rw [min_eq_right h2, min_eq_right h3]

/-- One failed attempt of `attempt_reconnection`: emit the current wait,
fail to connect, double the wait (capped), recurse. -/
lemma attempt_reconnection_cons_fail (os : List ConnectOutcome) (s : VT)
    (v : VCam Image) (hr : s.running = true) (hsr : s.should_reconnect = true)
    (hir : s.is_reconnecting = true) :
    attempt_reconnection (.fail :: os) s v =
      ((attempt_reconnection os ⟨true, false, false, true, true, min (s.current_wait * 2) max_wait⟩ v).1,
       (attempt_reconnection os ⟨true, false, false, true, true, min (s.current_wait * 2) max_wait⟩ v).2.1,
       VEvent.reconnectionAttempt s.current_wait ::
         (attempt_reconnection os ⟨true, false, false, true, true, min (s.current_wait * 2) max_wait⟩ v).2.2) := by
  conv_lhs => rw [attempt_reconnection]
  rw [hr, hsr, hir]
  simp [connect_stream, hr, hsr, hir]

/-- Behaviour of `attempt_reconnection` when every connect attempt fails:
it emits one `reconnection_attempt` per attempt, with waits doubling from
the entry wait and capped at `max_wait`; the sink-thread state is
untouched; the final wait is the entry wait doubled once per failure,
capped. -/
lemma recon_fail_spec (n : Nat) : ∀ (s : VT) (v : VCam Image),
    s.running = true → s.should_reconnect = true → s.is_reconnecting = true →
    s.current_wait ≤ max_wait →
    (attempt_reconnection (List.replicate n .fail) s v).2.2 =
      (List.range n).map
        (fun k => VEvent.reconnectionAttempt (min (s.current_wait * 2 ^ k) max_wait)) ∧
    (attempt_reconnection (List.replicate n .fail) s v).2.1 = v ∧
    (attempt_reconnection (List.replicate n .fail) s v).1.current_wait =
      min (s.current_wait * 2 ^ n) max_wait := by
  induction n with
  | zero =>
    intro s v _ _ _ hw
    refine ⟨by simp [attempt_reconnection], by simp [attempt_reconnection], ?_⟩
    simp only [List.replicate, attempt_reconnection, pow_zero, mul_one]
    omega
  | succ n ih =>
    intro s v hr hsr hir hw
    rw [List.replicate_succ, attempt_reconnection_cons_fail _ _ _ hr hsr hir]
    have hrec := ih ⟨true, false, false, true, true, min (s.current_wait * 2) max_wait⟩ v rfl rfl rfl (min_le_right _ _)
    refine ⟨?_, hrec.2.1, ?_⟩
    · rw [hrec.1, List.range_succ_eq_map, List.map_cons, List.map_map]
      simp only [pow_zero, mul_one, min_eq_left hw]
      congr 1
      exact List.map_congr_left fun k _ =>
        congrArg VEvent.reconnectionAttempt (min_cap_pow s.current_wait k)
    · rw [hrec.2.2]
      exact min_cap_pow s.current_wait n

/-- `handle_disconnection` never touches the backoff wait. -/
lemma handle_disconnection_wait (s : VT) (v : VCam Image) :
    (handle_disconnection s v).1.current_wait = s.current_wait := by
  simp only [handle_disconnection]
  split_ifs <;> rfl

/-- C4: the backoff wait starts at `initial_wait = 1`; after `n`
consecutive failed attempts the wait equals `min(2^n, 32)` — both as the
pure doubling iteration of source line 364 and as the `current_wait`
reached by `attempt_reconnection` after `n` failures from a fresh state —
and a successful connection in the `run` loop resets the wait to
`initial_wait`. -/
theorem C4_backoff_min_pow (n : Nat) :
    backoff_step^[n] initial_wait = min (2 ^ n) max_wait ∧
    (∀ (s : VT) (v : VCam Image), s.running = true →
      s.should_reconnect = true → s.is_reconnecting = true →
      s.current_wait = initial_wait →
      (attempt_reconnection (List.replicate n .fail) s v).1.current_wait =
        min (2 ^ n) max_wait) ∧
    (∀ (adv : Option (Nat × Nat)) (items : List DemuxItem) (s : VT)
      (v : VCam Image),
      (run_once (.success adv) items s v).1.current_wait = initial_wait) := by
  refine ⟨?_, ?_, ?_⟩
  · induction n with
    | zero => rfl
    | succ n ih =>
      rw [Function.iterate_succ_apply', ih]
      have h2 : 2 ^ (n + 1) = 2 ^ n * 2 := pow_succ 2 n
      simp only [backoff_step, max_wait] at h2 ⊢
      omega
  · intro s v hr hsr hir hw
    have := (recon_fail_spec n s v hr hsr hir (by rw [hw]; simp [initial_wait, max_wait])).2.2
    rw [this, hw]
    simp [initial_wait]
  · intro adv items s v
    simp only [run_once]
    rcases hc : connect_stream (.success adv) s v with ⟨s1, v1, e1⟩
    have hest : s1.connection_established = true := by
      rcases adv with _ | a <;>
        simp [connect_stream, resolved_rate] at hc <;>
        rw [← hc.1]
    rw [hest]
    simp only [Bool.not_true, Bool.false_eq_true, if_false]
    rcases hpp : process_packets items v1 with ⟨v2, e2, errored⟩
    cases errored with
    | false => simp
    | true => simp [handle_disconnection_wait]

/-- Witness for C4: after 6 failures from the initial state the wait is
`min(2^6, 32) = 32`. -/
theorem C4_witness :
    VT.init.running = true ∧ VT.init.should_reconnect = true ∧
    ({ VT.init with is_reconnecting := true } : VT).is_reconnecting = true ∧
    (attempt_reconnection (List.replicate 6 .fail)
      { VT.init with is_reconnecting := true }
      (VCam.init Image)).1.current_wait = min (2 ^ 6) max_wait :=
  ⟨rfl, rfl, rfl,
    (C4_backoff_min_pow 6).2.1 { VT.init with is_reconnecting := true }
      (VCam.init Image) rfl rfl rfl rfl⟩

/-- While the virtual camera has not been opened, the sink `run` loop only
sleeps: it emits no frame at all. -/
lemma sinkEmits_no_cam (m : Nat) : ∀ s : VCam Image, s.virtual_cam = none →
    sinkEmits m s = [] := by
  induction m with
  | zero => intro s _; rfl
  | succ m ih =>
    intro s h
    simp only [sinkEmits, sink_step, h]
    exact ih s h

/-- Counterexample to C5 as stated: start the engine on an unreachable
source (six failed connect attempts); the relay is in placeholder mode the
whole time, yet the sink thread has no open virtual camera — `set_frame_rate`
is only reached on a successful connection — so over 100 iterations of its
loop it emits no frame at all: the sink is silent, not continuously
emitting placeholder frames. -/
theorem C5_counterexample :
    (run_fail_start 6 VT.init (VCam.init Image)).2.1.send_test_pattern = true ∧
    (run_fail_start 6 VT.init (VCam.init Image)).2.1.virtual_cam = none ∧
    sinkEmits 100 (run_fail_start 6 VT.init (VCam.init Image)).2.1 = [] :=
  ⟨rfl, rfl, rfl⟩

/-- C5 (amended): starting the engine with an unreachable source, the
observer receives `connection_lost` followed by `reconnection_attempt`
events with waits `min(2^k, 32)` = 1, 2, 4, 8, 16, 32, 32, …; the sink
thread stays in test-pattern mode throughout; but the sink emits nothing
during this period, because the virtual camera is opened only by
`set_frame_rate`, which is reached only on a successful connection — the
sink is silent (not emitting placeholder frames) until a connection first
succeeds. -/
theorem C5_fail_start_trace (n : Nat) :
    (run_fail_start n VT.init (VCam.init Image)).2.2.filter VEvent.isObserver =
      VEvent.connectionLost ::
        (List.range n).map
          (fun k => VEvent.reconnectionAttempt (min (2 ^ k) max_wait)) ∧
    (run_fail_start n VT.init (VCam.init Image)).2.1 = VCam.init Image ∧
    (VCam.init Image).send_test_pattern = true ∧
    (VCam.init Image).virtual_cam = none ∧
    (∀ m, sinkEmits m (run_fail_start n VT.init (VCam.init Image)).2.1 = []) := by
  have hrec := recon_fail_spec n ⟨true, false, false, true, true, initial_wait⟩
    (VCam.init Image) rfl rfl rfl (by simp [initial_wait, max_wait])
  have hrun : run_fail_start n VT.init (VCam.init Image) =
      ((attempt_reconnection (List.replicate n .fail) ⟨true, false, false, true, true, initial_wait⟩ (VCam.init Image)).1,
       (attempt_reconnection (List.replicate n .fail) ⟨true, false, false, true, true, initial_wait⟩ (VCam.init Image)).2.1,
       VEvent.connectionLost :: VEvent.enableTP ::
         (attempt_reconnection (List.replicate n .fail) ⟨true, false, false, true, true, initial_wait⟩ (VCam.init Image)).2.2) := by
    simp [run_fail_start, connect_stream, VT.init, VCam.init, enable_test_pattern]
  rw [hrun]
  refine ⟨?_, hrec.2.1, rfl, rfl, ?_⟩
  · simp only [List.filter_cons, hrec.1]
    have h1 : (VEvent.connectionLost : VEvent Image).isObserver = true := rfl
    have h2 : (VEvent.enableTP : VEvent Image).isObserver = false := rfl
    simp only [h1, h2, if_true, if_false, Bool.false_eq_true]
    congr 1
    simp only [initial_wait, one_mul]
    rw [List.filter_map]
    exact congrArg (List.map fun k => VEvent.reconnectionAttempt (2 ^ k ⊓ max_wait))
      (List.filter_eq_self.mpr fun x _ => rfl)
  · intro m
    rw [hrec.2.1]
    exact sinkEmits_no_cam m (VCam.init Image) rfl

/-! ## C8, C9: the connect protocol and the read loop -/

/-- `connect_stream` on a successful open, fully evaluated. -/
lemma connect_stream_success (adv : Option (Nat × Nat)) (s : VT)
    (v : VCam Image) :
    connect_stream (.success adv) s v =
      ({ s with container := true, connection_established := true, is_reconnecting := false },
       disable_test_pattern
         (set_frame_rate (resolved_rate adv).1 (resolved_rate adv).2 v),
       [.setFrameRate (resolved_rate adv).1 (resolved_rate adv).2,
        .connectionEstablished, .disableTP]) := by
  rcases adv with _ | ⟨n, d⟩ <;> simp [connect_stream, resolved_rate]

/-- The inner decode loop forwards exactly the non-null frames, each as the
triple `frame_ready` / `send_frame` / `virtual_cam_frame_ready`. -/
lemma process_frames_events (frs : List (Option Image)) : ∀ v : VCam Image,
    (process_frames frs v).2 =
      frs.reduceOption.flatMap
        (fun f => [VEvent.frameReady f, VEvent.submitFrame f,
                   VEvent.vcFrameReady f]) := by
  induction frs with
  | nil => intro v; rfl
  | cons hd rest ih =>
    intro v
    cases hd with
    | none => simpa [process_frames, List.reduceOption_cons_of_none] using ih v
    | some f =>
      simp [process_frames, List.reduceOption_cons_of_some, ih]

/-- The read loop forwards exactly the valid frames of the packets
processed before the first error. -/
lemma process_packets_events (items : List DemuxItem) : ∀ v : VCam Image,
    (process_packets items v).2.1 =
      (specValidFrames items).flatMap
        (fun f => [VEvent.frameReady f, VEvent.submitFrame f,
                   VEvent.vcFrameReady f]) := by
  induction items with
  | nil => intro v; rfl
  | cons it rest ih =>
    intro v
    cases it with
    | raiseErr => rfl
    | packet dts frs =>
      cases dts with
      | none => simpa [process_packets, specValidFrames] using ih v
      | some t =>
        simp [process_packets, specValidFrames, process_frames_events,
          List.flatMap_append]
        have := ih (process_frames frs v).1
        simp [specValidFrames] at this
        exact this

/-- The forwarded-frame trace contains no `setFrameRate` event. -/
lemma flatMap_forward_no_setrate (fs : List Image) :
    (fs.flatMap (fun f => [VEvent.frameReady f, VEvent.submitFrame f,
      VEvent.vcFrameReady f])).countP VEvent.isSetRate = 0 := by
  rw [List.countP_eq_zero]
  intro e he
  rw [List.mem_flatMap] at he
  rcases he with ⟨f, _, hf⟩
  simp only [List.mem_cons, List.not_mem_nil, or_false] at hf
  rcases hf with h | h | h <;> subst h <;> simp [VEvent.isSetRate]

/-- `handle_disconnection` emits no `setFrameRate` event. -/
lemma handle_disconnection_no_setrate (s : VT) (v : VCam Image) :
    (handle_disconnection s v).2.2.countP VEvent.isSetRate = 0 := by
  simp only [handle_disconnection]
  split_ifs <;> rfl

/-- C8: on every successful connection, the stream's advertised average
rate is used when present and 25/1 otherwise; the resolved rate is handed
to the sink thread (its rate fields are set) and the `setFrameRate` call is
the very first event of the connection's trace — in particular it happens
exactly once per successful connection and before any frame from that
connection is forwarded. -/
theorem C8_rate_resolved_once_before_frames (adv : Option (Nat × Nat))
    (items : List DemuxItem) (s : VT) (v : VCam Image) :
    resolved_rate none = (25, 1) ∧
    (∀ n d, resolved_rate (some (n, d)) = (n, d)) ∧
    (connect_stream (.success adv) s v).2.2 =
      [VEvent.setFrameRate (resolved_rate adv).1 (resolved_rate adv).2,
       VEvent.connectionEstablished, VEvent.disableTP] ∧
    (connect_stream (.success adv) s v).2.1.frame_rate_n =
      some (resolved_rate adv).1 ∧
    (connect_stream (.success adv) s v).2.1.frame_rate_d =
      some (resolved_rate adv).2 ∧
    (∃ rest : List (VEvent Image),
      (run_once (.success adv) items s v).2.2 =
        VEvent.setFrameRate (resolved_rate adv).1 (resolved_rate adv).2 :: rest ∧
      rest.countP VEvent.isSetRate = 0) := by
  have hdis : ∀ w : VCam Image, (disable_test_pattern w).frame_rate_n =
      w.frame_rate_n ∧ (disable_test_pattern w).frame_rate_d = w.frame_rate_d := by
    intro w
    simp only [disable_test_pattern]
    split_ifs <;> exact ⟨rfl, rfl⟩
  have hset : ∀ (n d : Nat) (w : VCam Image),
      (set_frame_rate n d w).frame_rate_n = some n ∧
      (set_frame_rate n d w).frame_rate_d = some d := by
    intro n d w
    simp only [set_frame_rate]
    rcases w.virtual_cam with _ | c <;> exact ⟨rfl, rfl⟩
  refine ⟨rfl, fun n d => rfl, ?_, ?_, ?_, ?_⟩
  · rw [connect_stream_success]
  · rw [connect_stream_success]
    rw [(hdis _).1, (hset _ _ _).1]
  · rw [connect_stream_success]
    rw [(hdis _).2, (hset _ _ _).2]
  · rw [run_once, connect_stream_success]
    simp only [Bool.not_true, Bool.false_eq_true, if_false]
    rcases hpp : process_packets items (disable_test_pattern
        (set_frame_rate (resolved_rate adv).1 (resolved_rate adv).2 v))
      with ⟨v2, e2, errored⟩
    refine ⟨VEvent.connectionEstablished :: VEvent.disableTP ::
      (e2 ++ (if errored = true then (handle_disconnection { s with container := true, connection_established := true, is_reconnecting := false, current_wait := initial_wait } v2).2.2 else [])), ?_, ?_⟩
    · cases errored <;> simp [hpp]
    · have he2 : e2.countP VEvent.isSetRate = 0 := by
        have := process_packets_events items (disable_test_pattern
          (set_frame_rate (resolved_rate adv).1 (resolved_rate adv).2 v))
        rw [hpp] at this
        simp only at this
        rw [this]
        exact flatMap_forward_no_setrate _
      cases errored <;>
        simp [List.countP_cons, List.countP_append, he2,
          handle_disconnection_no_setrate, VEvent.isSetRate]

/-- C9: the read loop skips every packet lacking a decode timestamp and
every null decode result without escalating them; every remaining valid
frame is forwarded both to the relay (`send_frame`) and to the observer
(`frame_ready` and `virtual_cam_frame_ready`), in order; and a raised
transport/decode error is absorbed by the `except` handler, which converts
it into the reconnecting transition while the thread keeps running — the
error never escapes the loop. -/
theorem C9_read_loop_skips_and_absorbs (items : List DemuxItem) (s : VT)
    (v : VCam Image) (hest : s.connection_established = true)
    (hnr : s.is_reconnecting = false) (hr : s.running = true) :
    (process_packets items v).2.1 =
      (specValidFrames items).flatMap
        (fun f => [VEvent.frameReady f, VEvent.submitFrame f,
                   VEvent.vcFrameReady f]) ∧
    ((process_packets items v).2.2 = true →
      ((handle_disconnection s (process_packets items v).1).1.is_reconnecting = true ∧
       (handle_disconnection s (process_packets items v).1).1.running = true ∧
       (handle_disconnection s (process_packets items v).1).2.2 =
         [VEvent.connectionLost, VEvent.enableTP])) := by
  refine ⟨process_packets_events items v, fun _ => ?_⟩
  simp [handle_disconnection, hest, hnr, hr]

/-- A small frame used in concrete witnesses. -/
def witFrame : Image := create_test_pattern 2 8

/-- Witness for C9: a dts-less packet, a packet with a null and a valid
frame, then an error.  The trace forwards exactly the one valid frame, and
the error is converted into the reconnecting transition. -/
theorem C9_witness :
    (⟨true, true, true, true, false, 1⟩ : VT).connection_established = true ∧
    (⟨true, true, true, true, false, 1⟩ : VT).is_reconnecting = false ∧
    (⟨true, true, true, true, false, 1⟩ : VT).running = true ∧
    ((process_packets
        [.packet none [some witFrame], .packet (some 0) [none, some witFrame],
         .raiseErr]
        (VCam.init Image)).2.1 =
      (specValidFrames
        [.packet none [some witFrame], .packet (some 0) [none, some witFrame],
         .raiseErr]).flatMap
        (fun f => [VEvent.frameReady f, VEvent.submitFrame f,
                   VEvent.vcFrameReady f]) ∧
    ((process_packets
        [.packet none [some witFrame], .packet (some 0) [none, some witFrame],
         .raiseErr]
        (VCam.init Image)).2.2 = true →
      ((handle_disconnection (⟨true, true, true, true, false, 1⟩ : VT)
          (process_packets
            [.packet none [some witFrame],
             .packet (some 0) [none, some witFrame], .raiseErr]
            (VCam.init Image)).1).1.is_reconnecting = true ∧
       (handle_disconnection (⟨true, true, true, true, false, 1⟩ : VT)
          (process_packets
            [.packet none [some witFrame],
             .packet (some 0) [none, some witFrame], .raiseErr]
            (VCam.init Image)).1).1.running = true ∧
       (handle_disconnection (⟨true, true, true, true, false, 1⟩ : VT)
          (process_packets
            [.packet none [some witFrame],
             .packet (some 0) [none, some witFrame], .raiseErr]
            (VCam.init Image)).1).2.2 =
         [VEvent.connectionLost, VEvent.enableTP]))) :=
  ⟨rfl, rfl, rfl,
    C9_read_loop_skips_and_absorbs
      [.packet none [some witFrame], .packet (some 0) [none, some witFrame],
       .raiseErr]
      ⟨true, true, true, true, false, 1⟩ (VCam.init Image) rfl rfl rfl⟩

/-! ## C7: the stop protocol and the uninterruptible backoff sleep -/

/-- Once `running` is false, a tick neither emits an attempt nor restores
`running`. -/
lemma rstep_stopped (a b : Bool) (s : ReconM) (h : s.running = false) :
    (rstep a b s).1.running = false ∧ (rstep a b s).2 = none := by
  cases a <;> rcases hp : s.phase with _ | k | _ | _ <;>
    simp [rstep, h, hp] <;> split_ifs <;> simp

/-- After `running` is false no reconnection attempt is ever emitted. -/
lemma rrunEmits_stopped (sched : List (Bool × Bool)) : ∀ s : ReconM,
    s.running = false → rrunEmits sched s = [] := by
  induction sched with
  | nil => intro s _; rfl
  | cons p ps ih =>
    intro s h
    have hs := rstep_stopped p.1 p.2 s h
    simp only [rrunEmits]
    rcases hstep : rstep p.1 p.2 s with ⟨s1, e⟩
    rw [hstep] at hs
    simp only at hs
    rw [hs.2]
    exact ih s1 hs.1

/-- A machine in the middle of a `time.sleep` with `running` already false
still completes the whole remaining sleep and only then exits: it reaches
`done` within `k + 2` ticks (the `k` remaining sleep ticks, the
`afterSleep` check, and the loop exit), never earlier than the sleep's
end. -/
lemma rrun_sleep_done (k : Nat) : ∀ s : ReconM, s.running = false →
    s.phase = .sleeping k →
    (rrun (List.replicate (k + 2) (false, false)) s).phase = .done := by
  induction k with
  | zero =>
    intro s h hp
    have hrepl : List.replicate (0 + 2) ((false, false) : Bool × Bool) =
      [(false, false), (false, false)] := rfl
    rw [hrepl]
    simp [rrun, rstep, h, hp]
  | succ k ih =>
    intro s h hp
    have hrepl : List.replicate (k + 1 + 2) ((false, false) : Bool × Bool) =
      (false, false) :: List.replicate (k + 2) (false, false) := rfl
    rw [hrepl]
    simp only [rrun]
    cases k with
    | zero =>
      have h1 : (rstep false false s).1 = { s with phase := .afterSleep } := by
        simp [rstep, hp]
      rw [h1]
      simp [rrun, rstep, h, List.replicate]
    | succ m =>
      have h1 : (rstep false false s).1 =
          { s with phase := .sleeping (m + 1) } := by
        simp [rstep, hp]
      rw [h1]
      exact ih _ h rfl

/-- Counterexample to C7 as stated: from the loop head with a 4-second
backoff wait, the machine emits the attempt and enters the sleep; a
`stop()` issued at the first sleep tick sets `running := false`
immediately, yet the loop — whose `time.sleep` is a plain uninterruptible
sleep, `running` being read only before and after it — is still sleeping
two ticks later, finishes the entire 4-tick sleep, and only then observes
the stop and exits.  The sleep runs to completion before the stop is
observed, contradicting the claim. -/
theorem C7_counterexample :
    (rrun [(false, false), (true, false)]
      ⟨true, true, true, 4, .loopHead⟩).running = false ∧
    (rrun [(false, false), (true, false)]
      ⟨true, true, true, 4, .loopHead⟩).phase = .sleeping 3 ∧
    (rrun ([(false, false), (true, false)] ++ List.replicate 2 (false, false))
      ⟨true, true, true, 4, .loopHead⟩).phase = .sleeping 1 ∧
    (rrun ([(false, false), (true, false)] ++ List.replicate 3 (false, false))
      ⟨true, true, true, 4, .loopHead⟩).phase = .afterSleep ∧
    (rrun ([(false, false), (true, false)] ++ List.replicate 4 (false, false))
      ⟨true, true, true, 4, .loopHead⟩).phase = .done := by
  decide

/-- C7 (amended): `stop()` is safe to call in any state: it clears
`running`, closes the container, and forbids any further reconnection
(`should_reconnect` and `is_reconnecting` false); once the running flag is
down the reconnection loop emits no further attempt, and from inside a
backoff sleep it exits within the remaining sleep plus two check ticks.
However — unlike the original claim — an in-progress backoff sleep is
uninterruptible and always runs to completion before the stop is observed
(see the counterexample), so a stop issued during a wait of `w` seconds is
observed only after the whole remaining sleep has elapsed. -/
theorem C7_stop_protocol (s : VT) (m : ReconM) (k : Nat)
    (sched : List (Bool × Bool)) (hrun : m.running = false) :
    ((stopVT s).running = false ∧ (stopVT s).container = false ∧
     (stopVT s).should_reconnect = false ∧
     (stopVT s).is_reconnecting = false) ∧
    rrunEmits sched m = [] ∧
    (m.phase = .sleeping k →
      (rrun (List.replicate (k + 2) (false, false)) m).phase = .done) :=
  ⟨⟨rfl, rfl, rfl, rfl⟩, rrunEmits_stopped sched m hrun,
   fun hp => rrun_sleep_done k m hrun hp⟩

/-- Witness for C7: a stopped machine three ticks into a sleep emits
nothing on a further schedule and exits within five ticks. -/
theorem C7_witness :
    (⟨false, true, true, 4, .sleeping 3⟩ : ReconM).running = false ∧
    (stopVT VT.init).container = false ∧
    rrunEmits [(false, false), (false, false)]
      ⟨false, true, true, 4, .sleeping 3⟩ = [] ∧
    (rrun (List.replicate (3 + 2) (false, false))
      ⟨false, true, true, 4, .sleeping 3⟩).phase = .done :=
  ⟨rfl,
   (C7_stop_protocol VT.init ⟨false, true, true, 4, .sleeping 3⟩ 3
     [(false, false), (false, false)] rfl).1.2.1,
   (C7_stop_protocol VT.init ⟨false, true, true, 4, .sleeping 3⟩ 3
     [(false, false), (false, false)] rfl).2.1,
   (C7_stop_protocol VT.init ⟨false, true, true, 4, .sleeping 3⟩ 3
     [(false, false), (false, false)] rfl).2.2 rfl⟩

end RTSPVC
